import Mathlib

/-
Verification of the completion-token resolution mechanism of the Beast
repository, a shallow embedding of the two header versions:

  * src/include/beast/core/async_result.hpp  (older version, namespace V1)
  * src/unnamed/part_000                     (newer version, namespace V2)

Both headers define `beast::async_result<CompletionToken, Signature>` and
`beast::async_completion`, layered on the external resolution points
`boost::asio::handler_type` and `boost::asio::async_result`.

Modelling choices:

  * A C++ type in the fragment that matters here is an unqualified core
    type together with a top-level cv/reference qualification
    (T, const T, T&, T&&, const T&, const T&&).
  * The open set of external specializations of `boost::asio::handler_type`
    and `boost::asio::async_result`, together with C++ invocability of a
    type with a signature, is a parameter `World`: the claims are proved
    for every world, i.e. for every possible set of registered adapter
    strategies.
  * "Fails to compile" is modelled by `Option`: a construction that would
    trip a `static_assert` returns `none`.
  * Runtime objects carry an identity (`ObjId`) so that borrowing the
    caller's token (no new object) is distinguishable from constructing a
    new handler by move/copy (a fresh object).
-/

namespace Beast

/-- An unqualified C++ object type: an atomic class type keyed by a number,
or `void`. -/
inductive CoreTy where
  | base : Nat → CoreTy
  | voidTy : CoreTy
deriving DecidableEq

/-- Top-level cv/reference qualification of a C++ type. -/
inductive Qual where
  | plain
  | const
  | lref
  | rref
  | constLref
  | constRref
deriving DecidableEq

/-- A C++ type of the fragment used by this mechanism: an unqualified core
type with one top-level qualification. -/
structure Ty where
  core : CoreTy
  qual : Qual
deriving DecidableEq

/-- Models `std::is_reference`. -/
def Ty.isReference (t : Ty) : Bool :=
  match t.qual with
  | .lref | .rref | .constLref | .constRref => true
  | _ => false

/-- Models `std::decay` on this fragment (no arrays or function types):
strip the reference and the top-level cv-qualification. -/
def Ty.decay (t : Ty) : Ty :=
  ⟨t.core, .plain⟩

/-- The C++ `void` type, the return type of the primary
`boost::asio::async_result` template. -/
def tyVoid : Ty :=
  ⟨.voidTy, .plain⟩

/-- A call signature `void(Args...)`: the argument type list of the final
completion handler (the return type is always void). -/
structure Sig where
  args : List Ty
deriving DecidableEq

/-- Runtime values, abstractly: the unit value (returned by a void
function) or some payload. -/
inductive Value where
  | vunit : Value
  | vnat : Nat → Value
deriving DecidableEq

/-- Identity of a runtime object, used to tell a borrowed object from a
newly constructed one. -/
abbrev ObjId := Nat

/-- A runtime object: an identity and a value. The completion token the
caller passes to the initiating function is such an object. -/
structure Obj where
  id : ObjId
  val : Value
deriving DecidableEq

/-- The open, externally supplied part of the mechanism: the set of
registered adapter strategies and the C++ invocability relation.

  * `handlerSpec t s`: the user specializations of
    `boost::asio::handler_type<t, s>`; `some c` means a specialization
    registered for token type `t` mapping to the (unqualified) handler
    class type `c`, `none` means no specialization (primary template).
    Boost specializations produce handler class types, hence `CoreTy`.
  * `resultSpec h`: the user specializations of
    `boost::asio::async_result<h>`; `some r` gives the specialized nested
    `type` (the initiating function return type), `none` the primary
    template (whose `type` is void).
  * `extract h v`: the value returned by a specialized
    `boost::asio::async_result<h>::get()` when the bound handler has
    value `v`.
  * `adapt h t s v`: the value of a newly constructed handler of type `h`
    when constructed (by a strategy) from a token of type `t` with value
    `v` for signature `s`.
  * `invocable h s`: whether C++ type `h` is invocable with exactly the
    argument list of `s` returning no value. -/
structure World where
  handlerSpec : Ty → Sig → Option CoreTy
  resultSpec : Ty → Option Ty
  extract : Ty → Value → Value
  adapt : Ty → Ty → Sig → Value → Value
  invocable : Ty → Sig → Bool

namespace asio

/-- Models `boost::asio::handler_type<Handler, Signature>::type`. Boost
ships partial specializations that strip top-level cv-qualification and
references (`Handler&`, `Handler&&`, `const Handler`, ...) before
dispatching, so lookup happens at the decayed type; the primary template
defines `type` as the (stripped) token type itself. -/
def handler_type (W : World) (t : Ty) (s : Sig) : Ty :=
  match W.handlerSpec t.decay s with
  | some c => ⟨c, .plain⟩
  | none => t.decay

/-- Models `boost::asio::async_result<Handler>::type`: the specialized
return type when registered, `void` from the primary template otherwise. -/
def async_result_type (W : World) (h : Ty) : Ty :=
  match W.resultSpec h with
  | some r => r
  | none => tyVoid

/-- Models `boost::asio::async_result<Handler>::get()` where the carrier
was bound at construction to a handler with value `hv`: the primary
template's `get()` does nothing and returns void; a specialization
extracts a value from the state captured from the handler. -/
def async_result_get (W : World) (h : Ty) (hv : Value) : Value :=
  match W.resultSpec h with
  | some _ => W.extract h hv
  | none => Value.vunit

end asio

/-- Modelled from the spec: `is_CompletionHandler` is declared in
beast/core/handler_concepts.hpp, which is not part of this source tree;
the spec states the checked property as "the resulting Handler type is
invocable with exactly Signature's argument list and returns no value",
which is exactly the world's invocability relation. -/
def is_CompletionHandler (W : World) (h : Ty) (s : Sig) : Bool :=
  W.invocable h s

/-- Value of a handler of type `target` constructed from a token of
declared type `src` with value `v`: direct copy/move construction (same
object type after decay) preserves the value; otherwise an adapter
strategy builds the handler state from the token. -/
def constructVal (W : World) (target src : Ty) (s : Sig) (v : Value) : Value :=
  if target = src.decay then v else W.adapt target src s v

/-- How a binder stores its completion handler member: as a reference to
the caller's token (`completion_handler_type&`) or as an owned value
(`completion_handler_type`). -/
inductive Storage where
  | borrowed
  | owned
deriving DecidableEq

/-- The observable outcome of constructing an `async_completion` object:
how the handler member is stored, its type, the identity and value of the
handler object it denotes, and the handler type and object the result
carrier member was bound to by the constructor. -/
structure Binder where
  storage : Storage
  handlerTy : Ty
  handlerId : ObjId
  handlerVal : Value
  resultBoundTy : Ty
  resultBoundId : ObjId
deriving DecidableEq

/-- The value produced by the binder's result member `get()`:
`boost::asio::async_result` dispatched at the handler type the carrier
was bound to, reading the bound handler's value. -/
def Binder.resultGet (W : World) (b : Binder) : Value :=
  asio.async_result_get W b.resultBoundTy b.handlerVal

namespace V2

namespace async_result

/-- Whether `beast::async_result<t, s>` (part_000, lines 42-85) can be
instantiated: its `static_assert(! std::is_reference<CompletionToken>::value)`
rejects reference-qualified token types. -/
def instantiates (t : Ty) (_s : Sig) : Bool :=
  !t.isReference

/-- The copy constructor of `beast::async_result` (part_000) is declared
deleted, the copy assignment operator likewise. -/
def specialMembersCopyCtorDeleted : Bool := true

/-- The copy assignment operator of `beast::async_result` (part_000) is
declared deleted. -/
def specialMembersCopyAssignDeleted : Bool := true

/-- `beast::async_result<CompletionToken, Signature>::completion_handler_type`
(part_000): `boost::asio::handler_type<CompletionToken, Signature>::type`. -/
def completion_handler_type (W : World) (t : Ty) (s : Sig) : Ty :=
  asio.handler_type W t s

/-- `beast::async_result<CompletionToken, Signature>::return_type`
(part_000): `boost::asio::async_result<completion_handler_type>::type`. -/
def return_type (W : World) (t : Ty) (s : Sig) : Ty :=
  asio.async_result_type W (completion_handler_type W t s)

/-- `beast::async_result::get()` (part_000): delegates to the wrapped
`boost::asio::async_result` member `impl_`, which was bound to a handler
with value `hv`. -/
def get (W : World) (t : Ty) (s : Sig) (hv : Value) : Value :=
  asio.async_result_get W (completion_handler_type W t s) hv

end async_result

/-- The macro `BEAST_INITFN_RESULT_TYPE(ct, sig)` of part_000:
`typename async_result<typename std::decay<ct>::type, sig>::return_type`. -/
def BEAST_INITFN_RESULT_TYPE (W : World) (ct : Ty) (s : Sig) : Ty :=
  async_result.return_type W ct.decay s

/-- The macro `BEAST_HANDLER_TYPE(ct, sig)` of part_000:
`typename async_result<typename std::decay<ct>::type, sig>::completion_handler_type`. -/
def BEAST_HANDLER_TYPE (W : World) (ct : Ty) (s : Sig) : Ty :=
  async_result.completion_handler_type W ct.decay s

namespace async_completion

/-- `beast::async_completion<CompletionToken, Signature>::completion_handler_type`
(part_000): resolved through `async_result` at the decayed token type. -/
def completion_handler_type (W : World) (ct : Ty) (s : Sig) : Ty :=
  V2.async_result.completion_handler_type W ct.decay s

/-- The constructor of `beast::async_completion` (part_000), observed on a
caller token object `tok` of declared type `ct`, with `fresh` the identity
a newly constructed handler object would get.

  * The `static_assert(is_CompletionHandler<completion_handler_type,
    Signature>::value)` in the constructor body makes instantiation fail
    (`none`) when the resolved handler type is not invocable with the
    signature.
  * The member `completion_handler` is declared as
    `completion_handler_type&` when
    `std::is_same<CompletionToken, completion_handler_type>` holds, and
    is initialized from `token` itself: the caller's object is borrowed,
    no new handler object exists.
  * Otherwise the member is an owned `completion_handler_type` value,
    constructed from `static_cast<CompletionToken&&>(token)`: a new
    handler object with identity `fresh`.
  * The member `result` (`async_result<std::decay_t<CompletionToken>,
    Signature>`) is initialized from the `completion_handler` member, so
    it is bound to exactly the handler object the member denotes. -/
def mkBinder (W : World) (ct : Ty) (s : Sig) (tok : Obj) (fresh : ObjId) :
    Option Binder :=
  if is_CompletionHandler W (completion_handler_type W ct s) s then
    if ct = completion_handler_type W ct s then
      some ⟨.borrowed, completion_handler_type W ct s, tok.id, tok.val,
        completion_handler_type W ct s, tok.id⟩
    else
      some ⟨.owned, completion_handler_type W ct s, fresh,
        constructVal W (completion_handler_type W ct s) ct s tok.val,
        completion_handler_type W ct s, fresh⟩
  else none

/-- The non-static data members of `beast::async_completion` (part_000). -/
inductive MemberName where
  | completion_handler
  | result
deriving DecidableEq

/-- The declaration order of the members of `beast::async_completion`
(part_000): `completion_handler` is declared before `result`, so C++
initializes the handler member first. -/
def members : List MemberName :=
  [.completion_handler, .result]

end async_completion

/-- One resolution per query, in sequence: the handler type and return
type `async_result` (part_000) resolves for each (token type, signature)
query of a list. -/
def resolveList (W : World) (qs : List (Ty × Sig)) : List (Ty × Ty) :=
  qs.map fun q =>
    (async_result.completion_handler_type W q.1 q.2,
     async_result.return_type W q.1 q.2)

end V2

namespace V1

namespace async_result

/-- Whether `beast::async_result<t, s>` (async_result.hpp, lines 42-74)
can be instantiated: its `static_assert(! std::is_reference<...>)` rejects
reference-qualified token types. -/
def instantiates (t : Ty) (_s : Sig) : Bool :=
  !t.isReference

/-- The copy constructor of `beast::async_result` (async_result.hpp) is
declared deleted. -/
def specialMembersCopyCtorDeleted : Bool := true

/-- The copy assignment operator of `beast::async_result`
(async_result.hpp) is declared deleted. -/
def specialMembersCopyAssignDeleted : Bool := true

/-- `beast::async_result::completion_handler_type` (async_result.hpp):
`boost::asio::handler_type<CompletionToken, Signature>::type`. -/
def completion_handler_type (W : World) (t : Ty) (s : Sig) : Ty :=
  asio.handler_type W t s

/-- `beast::async_result::return_type` (async_result.hpp):
`boost::asio::async_result<completion_handler_type>::type`. -/
def return_type (W : World) (t : Ty) (s : Sig) : Ty :=
  asio.async_result_type W (completion_handler_type W t s)

/-- `beast::async_result::get()` (async_result.hpp): delegates to the
wrapped `boost::asio::async_result` member `impl_`. -/
def get (W : World) (t : Ty) (s : Sig) (hv : Value) : Value :=
  asio.async_result_get W (completion_handler_type W t s) hv

end async_result

namespace async_completion

/-- `beast::async_completion<CompletionHandler, Signature>::handler_type`
(async_result.hpp):
`boost::asio::handler_type<CompletionHandler, Signature>::type`
(no `std::decay` in the source; boost itself strips cv/references). -/
def handler_type (W : World) (ct : Ty) (s : Sig) : Ty :=
  asio.handler_type W ct s

/-- `beast::async_completion<CompletionHandler, Signature>::result_type`
(async_result.hpp): `boost::asio::async_result<handler_type>::type`. -/
def result_type (W : World) (ct : Ty) (s : Sig) : Ty :=
  asio.async_result_type W (handler_type W ct s)

/-- The constructor of `beast::async_completion` (async_result.hpp),
observed on a caller token object `tok` of declared type `ct`.

  * The `static_assert(is_CompletionHandler<handler_type, Signature>::value)`
    makes instantiation fail (`none`) on a signature mismatch.
  * The member `handler` is always a `handler_type` value, initialized
    from `std::forward<CompletionHandler>(token)`: a new handler object
    (move- or copy-constructed, identity `fresh`), never a borrowed
    reference to the token.
  * The member `result` (`boost::asio::async_result<handler_type>`) is
    initialized from the `handler` member. -/
def mkBinder (W : World) (ct : Ty) (s : Sig) (tok : Obj) (fresh : ObjId) :
    Option Binder :=
  if is_CompletionHandler W (handler_type W ct s) s then
    some ⟨.owned, handler_type W ct s, fresh,
      constructVal W (handler_type W ct s) ct s tok.val,
      handler_type W ct s, fresh⟩
  else none

/-- The non-static data members of `beast::async_completion`
(async_result.hpp). -/
inductive MemberName where
  | handler
  | result
deriving DecidableEq

/-- The declaration order of the members of `beast::async_completion`
(async_result.hpp): `handler` is declared before `result`. -/
def members : List MemberName :=
  [.handler, .result]

end async_completion

/-- The macro `BEAST_INITFN_RESULT_TYPE(ct, sig)` of async_result.hpp:
`typename async_completion<ct, sig>::result_type`. -/
def BEAST_INITFN_RESULT_TYPE (W : World) (ct : Ty) (s : Sig) : Ty :=
  async_completion.result_type W ct s

/-- One resolution per query, in sequence, through `async_result` of
async_result.hpp. -/
def resolveList (W : World) (qs : List (Ty × Sig)) : List (Ty × Ty) :=
  qs.map fun q =>
    (async_result.completion_handler_type W q.1 q.2,
     async_result.return_type W q.1 q.2)

end V1

/-- A sample unqualified class type, used as a directly invocable token. -/
def t0 : Ty :=
  ⟨.base 0, .plain⟩

/-- A sample signature `void(T1)`. -/
def s0 : Sig :=
  ⟨[⟨.base 1, .plain⟩]⟩

/-- A world with no registered adapter strategies and no invocable types:
every token fails the completion-handler check. -/
def W0 : World :=
  ⟨fun _ _ => none, fun _ => none, fun _ v => v, fun _ _ _ v => v,
   fun _ _ => false⟩

/-- A world with no registered adapter strategies where exactly the plain
token type `t0` is invocable with `s0`: the primary, directly invocable
case. -/
def W1 : World :=
  ⟨fun _ _ => none, fun _ => none, fun _ v => v, fun _ _ _ v => v,
   fun t s => decide (t = t0) && decide (s = s0)⟩

/-
Helper lemmas, then the claim theorems.
-/

/-- Decaying an already unqualified type changes nothing. -/
theorem Ty.decay_eq_of_plain (t : Ty) (h : t.qual = Qual.plain) :
    t.decay = t := by
  cases t with
  | mk c q => simp_all [Ty.decay]

/-- The resolved handler type is always an unqualified object type:
either a registered handler class type or the decayed token type. -/
theorem asio.handler_type_qual_plain (W : World) (t : Ty) (s : Sig) :
    (asio.handler_type W t s).qual = Qual.plain := by
  unfold asio.handler_type
  cases W.handlerSpec t.decay s <;> rfl

/-- `boost::asio::handler_type` resolves through the decayed token type,
via the boost specializations stripping cv/references. -/
theorem asio.handler_type_decay (W : World) (t : Ty) (s : Sig) :
    asio.handler_type W t.decay s = asio.handler_type W t s := by
  unfold asio.handler_type
  rfl

/-- When the token type is identical to the resolved handler type,
constructing a handler from the token is a direct copy/move and preserves
the value. -/
theorem constructVal_of_same (W : World) (ct : Ty) (s : Sig) (v : Value)
    (h : ct = V2.async_completion.completion_handler_type W ct s) :
    constructVal W (V2.async_completion.completion_handler_type W ct s)
      ct s v = v := by
  have hq : ct.qual = Qual.plain := by
    rw [h]
    exact asio.handler_type_qual_plain W ct.decay s
  have hcond : V2.async_completion.completion_handler_type W ct s =
      ct.decay := by
    rw [← h]
    exact (Ty.decay_eq_of_plain ct hq).symm
  simp [constructVal, hcond]

/-- Handler values exposed by the newer binder, as a function of the
static-assert gate: the borrowed and owned branches both yield the value
`constructVal` gives. -/
theorem v2_mkBinder_map_handlerVal (W : World) (ct : Ty) (s : Sig)
    (tok : Obj) (fresh : ObjId) :
    Option.map Binder.handlerVal
        (V2.async_completion.mkBinder W ct s tok fresh) =
      if is_CompletionHandler W
          (V2.async_completion.completion_handler_type W ct s) s = true then
        some (constructVal W
          (V2.async_completion.completion_handler_type W ct s) ct s tok.val)
      else none := by
  unfold V2.async_completion.mkBinder
  by_cases hch : is_CompletionHandler W
      (V2.async_completion.completion_handler_type W ct s) s = true
  · by_cases hsame : ct = V2.async_completion.completion_handler_type W ct s
    · rw [if_pos hch, if_pos hsame, if_pos hch]
      simp [constructVal_of_same W ct s tok.val hsame]
    · rw [if_pos hch, if_neg hsame, if_pos hch]
      rfl
  · rw [if_neg hch, if_neg hch]
    rfl

/-- Handler values exposed by the older binder. -/
theorem v1_mkBinder_map_handlerVal (W : World) (ct : Ty) (s : Sig)
    (tok : Obj) (fresh : ObjId) :
    Option.map Binder.handlerVal
        (V1.async_completion.mkBinder W ct s tok fresh) =
      if is_CompletionHandler W
          (V1.async_completion.handler_type W ct s) s = true then
        some (constructVal W
          (V1.async_completion.handler_type W ct s) ct s tok.val)
      else none := by
  unfold V1.async_completion.mkBinder
  by_cases hch : is_CompletionHandler W
      (V1.async_completion.handler_type W ct s) s = true
  · rw [if_pos hch, if_pos hch]
    rfl
  · rw [if_neg hch, if_neg hch]
    rfl

/-- Result values produced by the newer binder's result member. -/
theorem v2_mkBinder_map_resultGet (W : World) (ct : Ty) (s : Sig)
    (tok : Obj) (fresh : ObjId) :
    Option.map (Binder.resultGet W)
        (V2.async_completion.mkBinder W ct s tok fresh) =
      if is_CompletionHandler W
          (V2.async_completion.completion_handler_type W ct s) s = true then
        some (asio.async_result_get W
          (V2.async_completion.completion_handler_type W ct s)
          (constructVal W
            (V2.async_completion.completion_handler_type W ct s) ct s
            tok.val))
      else none := by
  unfold V2.async_completion.mkBinder
  by_cases hch : is_CompletionHandler W
      (V2.async_completion.completion_handler_type W ct s) s = true
  · by_cases hsame : ct = V2.async_completion.completion_handler_type W ct s
    · rw [if_pos hch, if_pos hsame, if_pos hch]
      simp [Binder.resultGet, constructVal_of_same W ct s tok.val hsame]
    · rw [if_pos hch, if_neg hsame, if_pos hch]
      rfl
  · rw [if_neg hch, if_neg hch]
    rfl

/-- Result values produced by the older binder's result member. -/
theorem v1_mkBinder_map_resultGet (W : World) (ct : Ty) (s : Sig)
    (tok : Obj) (fresh : ObjId) :
    Option.map (Binder.resultGet W)
        (V1.async_completion.mkBinder W ct s tok fresh) =
      if is_CompletionHandler W
          (V1.async_completion.handler_type W ct s) s = true then
        some (asio.async_result_get W
          (V1.async_completion.handler_type W ct s)
          (constructVal W
            (V1.async_completion.handler_type W ct s) ct s tok.val))
      else none := by
  unfold V1.async_completion.mkBinder
  by_cases hch : is_CompletionHandler W
      (V1.async_completion.handler_type W ct s) s = true
  · rw [if_pos hch, if_pos hch]
    rfl
  · rw [if_neg hch, if_neg hch]
    rfl

/-- C2: for every token type that is directly invocable with the given
signature and falls in the primary, non-specialized case (an unqualified
token type with no registered `handler_type` or `async_result`
specialization), resolving (TokenType, Signature) through `async_result`
— in both header versions — yields `completion_handler_type` equal to the
token type itself, a `return_type` of void, and a `get()` that is a no-op
returning the unit value. -/
theorem c2_primary_case_identity_resolution (W : World) (t : Ty) (s : Sig)
    (hv : Value) (hplain : t.qual = Qual.plain)
    (hspec : W.handlerSpec t s = none) (hres : W.resultSpec t = none)
    (_hinv : W.invocable t s = true) :
    V2.async_result.completion_handler_type W t s = t ∧
    V2.async_result.return_type W t s = tyVoid ∧
    V2.async_result.get W t s hv = Value.vunit ∧
    V1.async_result.completion_handler_type W t s = t ∧
    V1.async_result.return_type W t s = tyVoid ∧
    V1.async_result.get W t s hv = Value.vunit := by
  have hd : t.decay = t := by
    cases t with
    | mk c q => simp_all [Ty.decay]
  simp [V2.async_result.completion_handler_type,
    V2.async_result.return_type, V2.async_result.get,
    V1.async_result.completion_handler_type,
    V1.async_result.return_type, V1.async_result.get,
    asio.handler_type, asio.async_result_type, asio.async_result_get,
    hd, hspec, hres]

/-- Witness for C2 at the concrete world `W1`, token `t0`, signature
`s0`. -/
theorem c2_primary_case_identity_resolution_witness :
    V2.async_result.completion_handler_type W1 t0 s0 = t0 ∧
    V2.async_result.return_type W1 t0 s0 = tyVoid ∧
    V2.async_result.get W1 t0 s0 (Value.vnat 3) = Value.vunit ∧
    V1.async_result.completion_handler_type W1 t0 s0 = t0 ∧
    V1.async_result.return_type W1 t0 s0 = tyVoid ∧
    V1.async_result.get W1 t0 s0 (Value.vnat 3) = Value.vunit :=
  c2_primary_case_identity_resolution W1 t0 s0 (Value.vnat 3)
    rfl rfl rfl (by decide)

/-- C3: in both versions, a binder exists for a (token, signature) pair
exactly when the resolved handler type passes the constructor's
`static_assert(is_CompletionHandler<..., Signature>)`: a handler type not
invocable with the signature makes construction fail at build time
(`none`), so no program instantiating the binder with a mismatched
handler exists and no runtime error path is reachable. -/
theorem c3_static_assert_gates_binder (W : World) (ct : Ty) (s : Sig)
    (tok : Obj) (fresh : ObjId) :
    ((V2.async_completion.mkBinder W ct s tok fresh).isSome = true ↔
      is_CompletionHandler W
        (V2.async_completion.completion_handler_type W ct s) s = true) ∧
    ((V1.async_completion.mkBinder W ct s tok fresh).isSome = true ↔
      is_CompletionHandler W
        (V1.async_completion.handler_type W ct s) s = true) := by
  constructor
  · unfold V2.async_completion.mkBinder
    cases h : is_CompletionHandler W
        (V2.async_completion.completion_handler_type W ct s) s
    · simp [h]
    · simp only [h, if_true]
      split <;> simp
  · unfold V1.async_completion.mkBinder
    cases h : is_CompletionHandler W
        (V1.async_completion.handler_type W ct s) s <;> simp [h]

/-- C9: resolution in the newer version is invariant under reference and
cv-qualification of the token type: the `BEAST_INITFN_RESULT_TYPE` and
`BEAST_HANDLER_TYPE` macros and `async_completion` of part_000 apply
`std::decay`, so a token type with any qualification resolves to exactly
the same handler type and return type as the unqualified token type. -/
theorem c9_resolution_decay_invariant (W : World) (c : CoreTy) (q : Qual)
    (s : Sig) :
    V2.BEAST_HANDLER_TYPE W ⟨c, q⟩ s =
      V2.BEAST_HANDLER_TYPE W ⟨c, Qual.plain⟩ s ∧
    V2.BEAST_INITFN_RESULT_TYPE W ⟨c, q⟩ s =
      V2.BEAST_INITFN_RESULT_TYPE W ⟨c, Qual.plain⟩ s ∧
    V2.async_completion.completion_handler_type W ⟨c, q⟩ s =
      V2.async_completion.completion_handler_type W ⟨c, Qual.plain⟩ s := by
  refine ⟨rfl, rfl, rfl⟩

/-- C1 counterexample: in the older version (async_result.hpp), with a
token whose type `t0` is identical to the resolved handler type, the
binder does not borrow the caller's token: it constructs a new owned
handler object (identity 9, distinct from the token's identity 5), so the
claimed borrow-no-copy behavior does not hold for both versions. -/
theorem c1_counterexample_v1_never_borrows :
    V1.async_completion.mkBinder W1 t0 s0 ⟨5, Value.vnat 7⟩ 9 =
      some ⟨Storage.owned, t0, 9, Value.vnat 7, t0, 9⟩ ∧
    (9 : ObjId) ≠ 5 := by
  refine ⟨by decide, by decide⟩

/-- C1 (amended): in the newer version (part_000), the binder borrows the
caller's token as the handler — same object, no copy — exactly when the
token type is identical to the resolved handler type, and otherwise
constructs a new owned handler by moving/forwarding the token into the
adapter strategy; the older version (async_result.hpp) always stores an
owned handler constructed by forwarding the token, and never borrows. -/
theorem c1_amended_borrow_vs_forward (W : World) (ct : Ty) (s : Sig)
    (tok : Obj) (fresh : ObjId) (b : Binder) :
    (V2.async_completion.mkBinder W ct s tok fresh = some b →
      ((b.storage = Storage.borrowed ↔
        ct = V2.async_completion.completion_handler_type W ct s) ∧
       (ct = V2.async_completion.completion_handler_type W ct s →
        b.handlerId = tok.id ∧ b.handlerVal = tok.val) ∧
       (ct ≠ V2.async_completion.completion_handler_type W ct s →
        b.handlerId = fresh ∧
        b.handlerVal = constructVal W b.handlerTy ct s tok.val))) ∧
    (V1.async_completion.mkBinder W ct s tok fresh = some b →
      b.storage = Storage.owned ∧ b.handlerId = fresh) := by
  constructor
  · intro h
    unfold V2.async_completion.mkBinder at h
    split at h
    · split at h
      · rename_i hsame
        cases h
        exact ⟨⟨fun _ => hsame, fun _ => rfl⟩, fun _ => ⟨rfl, rfl⟩,
          fun hne => absurd hsame hne⟩
      · rename_i hdiff
        cases h
        refine ⟨⟨fun hco => ?_, fun hsame => absurd hsame hdiff⟩,
          fun hsame => absurd hsame hdiff, fun _ => ⟨rfl, rfl⟩⟩
        exact absurd hco (by simp)
    · exact absurd h (by simp)
  · intro h
    unfold V1.async_completion.mkBinder at h
    split at h
    · cases h
      exact ⟨rfl, rfl⟩
    · exact absurd h (by simp)

/-- Witness for the amended C1 at the concrete world `W1`: the newer
version's binder on an invocable token of handler type borrows, and the
borrow condition is exactly type identity. -/
theorem c1_amended_borrow_vs_forward_witness :
    (Binder.mk Storage.borrowed t0 5 (Value.vnat 7) t0 5).storage =
        Storage.borrowed ↔
      t0 = V2.async_completion.completion_handler_type W1 t0 s0 :=
  ((c1_amended_borrow_vs_forward W1 t0 s0 ⟨5, Value.vnat 7⟩ 9
    ⟨Storage.borrowed, t0, 5, Value.vnat 7, t0, 5⟩).1 (by decide)).1

/-- C4: the two versions are behaviorally identical: for every world,
token type and signature, the older version's `handler_type` and
`BEAST_INITFN_RESULT_TYPE` agree with the newer version's
`completion_handler_type` and `BEAST_INITFN_RESULT_TYPE`, and the two
binders expose the same handler value and the same result value (they
differ only in handler-object ownership, not in any exposed value). -/
theorem c4_versions_behaviorally_identical (W : World) (ct : Ty) (s : Sig)
    (tok : Obj) (fresh : ObjId) :
    V1.async_completion.handler_type W ct s =
      V2.async_completion.completion_handler_type W ct s ∧
    V1.BEAST_INITFN_RESULT_TYPE W ct s =
      V2.BEAST_INITFN_RESULT_TYPE W ct s ∧
    Option.map Binder.handlerVal
        (V1.async_completion.mkBinder W ct s tok fresh) =
      Option.map Binder.handlerVal
        (V2.async_completion.mkBinder W ct s tok fresh) ∧
    Option.map (Binder.resultGet W)
        (V1.async_completion.mkBinder W ct s tok fresh) =
      Option.map (Binder.resultGet W)
        (V2.async_completion.mkBinder W ct s tok fresh) := by
  have hty : V1.async_completion.handler_type W ct s =
      V2.async_completion.completion_handler_type W ct s := rfl
  refine ⟨hty, rfl, ?_, ?_⟩
  · rw [v1_mkBinder_map_handlerVal, v2_mkBinder_map_handlerVal, hty]
  · rw [v1_mkBinder_map_resultGet, v2_mkBinder_map_resultGet, hty]

/-- C5 counterexample: with no registered strategy and a non-invocable
token (`W0`, where nothing is invocable), a handler type and a return
type do exist — the primary templates resolve them to the token type
itself and to void — contrary to the claim that none exist; what fails is
binder construction, rejected by the static assertion. -/
theorem c5_counterexample_types_still_resolve :
    V2.async_result.completion_handler_type W0 t0 s0 = t0 ∧
    V2.async_result.return_type W0 t0 s0 = tyVoid ∧
    V2.async_completion.mkBinder W0 t0 s0 ⟨5, Value.vnat 7⟩ 9 = none := by
  refine ⟨rfl, rfl, by decide⟩

/-- C5 (amended): for a token type neither directly invocable with the
signature nor covered by a registered strategy, type resolution itself
still succeeds via the primary templates (handler type = the decayed
token type, return type from the primary `async_result`), but the
binder's static assertion fails, so in both versions no binder — and
hence no initiating function using that token — can be instantiated;
there is no runtime error path. -/
theorem c5_amended_static_assert_rejects (W : World) (ct : Ty) (s : Sig)
    (tok : Obj) (fresh : ObjId)
    (hspec : W.handlerSpec ct.decay s = none)
    (hinv : W.invocable ct.decay s = false) :
    V2.async_completion.completion_handler_type W ct s = ct.decay ∧
    V2.async_completion.mkBinder W ct s tok fresh = none ∧
    V1.async_completion.mkBinder W ct s tok fresh = none := by
  have hspec2 : W.handlerSpec ⟨ct.core, Qual.plain⟩ s = none := hspec
  have hcht : V2.async_completion.completion_handler_type W ct s =
      ct.decay := by
    unfold V2.async_completion.completion_handler_type
      V2.async_result.completion_handler_type asio.handler_type
    simp [Ty.decay, hspec2]
  have hch : is_CompletionHandler W
      (V2.async_completion.completion_handler_type W ct s) s = false := by
    rw [hcht]
    exact hinv
  refine ⟨hcht, ?_, ?_⟩
  · unfold V2.async_completion.mkBinder
    simp [hch]
  · unfold V1.async_completion.mkBinder
    have : is_CompletionHandler W
        (V1.async_completion.handler_type W ct s) s = false := hch
    simp [this]

/-- Witness for the amended C5 at the concrete world `W0`, token `t0`,
signature `s0`. -/
theorem c5_amended_static_assert_rejects_witness :
    V2.async_completion.completion_handler_type W0 t0 s0 = Ty.decay t0 ∧
    V2.async_completion.mkBinder W0 t0 s0 ⟨5, Value.vnat 7⟩ 9 = none ∧
    V1.async_completion.mkBinder W0 t0 s0 ⟨5, Value.vnat 7⟩ 9 = none :=
  c5_amended_static_assert_rejects W0 t0 s0 ⟨5, Value.vnat 7⟩ 9 rfl rfl

/-- C6: in both versions, the binder's result member is constructed from
the binder's own completion handler member — the result carrier is bound
at construction to exactly that handler object and that handler type,
never to any other handler; the structure is immutable afterwards, so the
link holds for the carrier's entire lifetime. -/
theorem c6_result_carrier_bound_to_own_handler (W : World) (ct : Ty)
    (s : Sig) (tok : Obj) (fresh : ObjId) (b : Binder) :
    (V2.async_completion.mkBinder W ct s tok fresh = some b →
      b.resultBoundId = b.handlerId ∧ b.resultBoundTy = b.handlerTy) ∧
    (V1.async_completion.mkBinder W ct s tok fresh = some b →
      b.resultBoundId = b.handlerId ∧ b.resultBoundTy = b.handlerTy) := by
  constructor
  · intro h
    unfold V2.async_completion.mkBinder at h
    split at h
    · split at h <;> (cases h; exact ⟨rfl, rfl⟩)
    · exact absurd h (by simp)
  · intro h
    unfold V1.async_completion.mkBinder at h
    split at h
    · cases h
      exact ⟨rfl, rfl⟩
    · exact absurd h (by simp)

/-- Witness for C6: the older version's binder on a concrete invocable
token is bound to its own handler object and type. -/
theorem c6_result_carrier_bound_to_own_handler_witness :
    (Binder.mk Storage.owned t0 9 (Value.vnat 7) t0 9).resultBoundId =
        (Binder.mk Storage.owned t0 9 (Value.vnat 7) t0 9).handlerId ∧
      (Binder.mk Storage.owned t0 9 (Value.vnat 7) t0 9).resultBoundTy =
        (Binder.mk Storage.owned t0 9 (Value.vnat 7) t0 9).handlerTy :=
  (c6_result_carrier_bound_to_own_handler W1 t0 s0 ⟨5, Value.vnat 7⟩ 9
    ⟨Storage.owned, t0, 9, Value.vnat 7, t0, 9⟩).2 (by decide)

/-- C7: resolution is deterministic: in a sequence of resolutions, the
answer at every position depends only on that position's (token type,
signature) pair — it equals the resolution of that pair alone, in both
versions, independent of call order and of any prior resolutions. -/
theorem c7_resolution_deterministic (W : World) (qs : List (Ty × Sig))
    (i : Nat) (t : Ty) (s : Sig) (h : qs[i]? = some (t, s)) :
    (V2.resolveList W qs)[i]? = some
      (V2.async_result.completion_handler_type W t s,
       V2.async_result.return_type W t s) ∧
    (V1.resolveList W qs)[i]? = some
      (V1.async_result.completion_handler_type W t s,
       V1.async_result.return_type W t s) := by
  unfold V2.resolveList V1.resolveList
  rw [List.getElem?_map, List.getElem?_map, h]
  exact ⟨rfl, rfl⟩

/-- Witness for C7: the second resolution of a repeated query yields the
same pair as resolving the query alone. -/
theorem c7_resolution_deterministic_witness :
    (V2.resolveList W1 [(t0, s0), (t0, s0)])[1]? = some
      (V2.async_result.completion_handler_type W1 t0 s0,
       V2.async_result.return_type W1 t0 s0) ∧
    (V1.resolveList W1 [(t0, s0), (t0, s0)])[1]? = some
      (V1.async_result.completion_handler_type W1 t0 s0,
       V1.async_result.return_type W1 t0 s0) :=
  c7_resolution_deterministic W1 [(t0, s0), (t0, s0)] 1 t0 s0 rfl

/-- C8: in both versions, instantiating `async_result` with a
reference-qualified completion token type is rejected by the static
assertion, and the copy constructor and copy assignment operator of
`async_result` are declared deleted — each result carrier is a unique
per-call object that cannot be duplicated. -/
theorem c8_reference_rejected_and_noncopyable (t : Ty) (s : Sig)
    (h : t.isReference = true) :
    V2.async_result.instantiates t s = false ∧
    V1.async_result.instantiates t s = false ∧
    V2.async_result.specialMembersCopyCtorDeleted = true ∧
    V2.async_result.specialMembersCopyAssignDeleted = true ∧
    V1.async_result.specialMembersCopyCtorDeleted = true ∧
    V1.async_result.specialMembersCopyAssignDeleted = true := by
  refine ⟨?_, ?_, rfl, rfl, rfl, rfl⟩
  · simp [V2.async_result.instantiates, h]
  · simp [V1.async_result.instantiates, h]

/-- Witness for C8 at the reference type `T0&`. -/
theorem c8_reference_rejected_and_noncopyable_witness :
    V2.async_result.instantiates ⟨CoreTy.base 0, Qual.lref⟩ s0 = false ∧
    V1.async_result.instantiates ⟨CoreTy.base 0, Qual.lref⟩ s0 = false ∧
    V2.async_result.specialMembersCopyCtorDeleted = true ∧
    V2.async_result.specialMembersCopyAssignDeleted = true ∧
    V1.async_result.specialMembersCopyCtorDeleted = true ∧
    V1.async_result.specialMembersCopyAssignDeleted = true :=
  c8_reference_rejected_and_noncopyable ⟨CoreTy.base 0, Qual.lref⟩ s0 rfl

/-- C10: in both versions the handler member is declared before the
result member, so C++ initializes the concrete handler before the result
carrier is bound; and the carrier is bound to the very handler object the
public handler member exposes — the same object, not a copy of it. -/
theorem c10_member_order_and_same_object_binding (W : World) (ct : Ty)
    (s : Sig) (tok : Obj) (fresh : ObjId) (b : Binder) :
    V2.async_completion.members.indexOf
        V2.async_completion.MemberName.completion_handler <
      V2.async_completion.members.indexOf
        V2.async_completion.MemberName.result ∧
    V1.async_completion.members.indexOf
        V1.async_completion.MemberName.handler <
      V1.async_completion.members.indexOf
        V1.async_completion.MemberName.result ∧
    (V2.async_completion.mkBinder W ct s tok fresh = some b →
      b.resultBoundId = b.handlerId) := by
  refine ⟨by decide, by decide, ?_⟩
  intro h
  unfold V2.async_completion.mkBinder at h
  split at h
  · split at h <;> (cases h; rfl)
  · exact absurd h (by simp)

/-- Witness for C10: the newer version's binder on a concrete invocable
token binds its carrier to the exposed handler object. -/
theorem c10_member_order_and_same_object_binding_witness :
    (Binder.mk Storage.borrowed t0 5 (Value.vnat 7) t0 5).resultBoundId =
      (Binder.mk Storage.borrowed t0 5 (Value.vnat 7) t0 5).handlerId :=
  (c10_member_order_and_same_object_binding W1 t0 s0 ⟨5, Value.vnat 7⟩ 9
    ⟨Storage.borrowed, t0, 5, Value.vnat 7, t0, 5⟩).2.2 (by decide)

end Beast
